import Mathlib

/-!
Verification of the household/government agent core of the flood-adaptation
agent-based model (`base_model_mesa/model/agents.py`).

Numbers are modelled by `ℚ`. Random draws (initial wealth, risk aversion,
flood-depth sample) and the external damage function
`calculate_basic_flood_damage` are parameters of the construction function.
Mutable agent objects become explicit state records; the neighbour relation
is passed as an explicit list of neighbour states.
-/

namespace ABM

/-- The measure→cost table `Households.flood_measures` (a Python dict,
insertion-ordered). -/
def flood_measures : List (String × ℚ) :=
  [("Sandbags", 5000),
   ("Elevating the house", 80000),
   ("Relocating electrical systems", 25000),
   ("Collaborative project", 1000000)]

/-- The measure→reduction-factor table inside
`Households.calculate_damage_reduction_factor`. -/
def reduction_factors : List (String × ℚ) :=
  [("Sandbags", 0.05),
   ("Elevating the house", 0.7),
   ("Relocating electrical systems", 0.3),
   ("Collaborative project", 0.8)]

/-- `Households.calculate_damage_reduction_factor`: dict `.get(measure, 1)`,
defaulting to 1 for an unknown or absent measure. -/
def calculate_damage_reduction_factor (measure : Option String) : ℚ :=
  match measure with
  | none => 1
  | some m => (((reduction_factors.find? (fun p => p.1 == m)).map Prod.snd).getD 1)

/-- Python `max(affordable_measures, key=affordable_measures.get)`: walk the
entries keeping the first entry of maximal cost. -/
def max_by_cost (p : String × ℚ) : List (String × ℚ) → String × ℚ
  | [] => p
  | q :: qs => if p.2 < q.2 then max_by_cost q qs else max_by_cost p qs

/-- The dict comprehension filtering measures with cost ≤ the adaptation
budget (`affordable_measures` in `Households.__init__`). -/
def affordable_measures (budget : ℚ) : List (String × ℚ) :=
  flood_measures.filter (fun p => p.2 ≤ budget)

/-- Measure selection in `Households.__init__`: the costliest affordable
measure, or `none` when no measure is affordable. -/
def select_measure (budget : ℚ) : Option String :=
  match affordable_measures budget with
  | [] => none
  | p :: ps => some (max_by_cost p ps).1

/-- The mutable state of a `Households` agent (fields of `self` that the
modelled operations read or write). -/
structure Household where
  wealth : ℚ
  flood_depth_estimated : ℚ
  flood_damage_estimated : ℚ
  flood_depth_actual : ℚ
  flood_damage_actual : ℚ
  risk_aversness : ℚ
  adaptation_budget : ℚ
  selected_measure : Option String
  is_adapted : Bool
  deriving DecidableEq, Repr

/-- `Households.__init__`, with the external draws made explicit:
`damage` is `calculate_basic_flood_damage`, `wealth0` and `risk` are the
`random.uniform` draws, `raw_depth` is the `get_flood_depth` sample. -/
def Household.init (damage : ℚ → ℚ) (wealth0 risk raw_depth : ℚ) : Household :=
  let depth := if raw_depth < 0 then 0 else raw_depth
  let dmg_est := damage depth
  let budget := wealth0 * risk
  let sel := select_measure budget
  { wealth := wealth0
    flood_depth_estimated := depth
    flood_damage_estimated :=
      match sel with
      | some m => dmg_est * calculate_damage_reduction_factor (some m)
      | none => damage depth
    flood_depth_actual := 0
    flood_damage_actual := damage 0
    risk_aversness := risk
    adaptation_budget := budget
    selected_measure := sel
    is_adapted := false }

/-- `Households.re_evaluate_adaptation`: threshold 5000. -/
def re_evaluate_adaptation (h : Household) : Household :=
  if 5000 ≤ h.wealth ∧ ¬(h.is_adapted = true) then { h with is_adapted := true } else h

/-- `Households.receive_subsidy`: add the amount to wealth and re-evaluate. -/
def receive_subsidy (h : Household) (subsidy_amount : ℚ) : Household :=
  re_evaluate_adaptation { h with wealth := h.wealth + subsidy_amount }

/-- `Households.update_collaboration_status`. -/
def update_collaboration_status (h : Household) : Household :=
  if h.selected_measure = some "Collaborative project" then { h with is_adapted := true } else h

/-- `Households.collaborate_on_adaptation`: pool own wealth with every
neighbour's; if the total exceeds 50000, overwrite every neighbour's measure
with the collaborative project and update its status. Returns the (unchanged)
initiator together with the updated neighbour list. -/
def collaborate_on_adaptation (self : Household) (neighbours : List Household) :
    Household × List Household :=
  let total_wealth := self.wealth + (neighbours.map Household.wealth).sum
  if 50000 < total_wealth then
    (self, neighbours.map (fun n =>
      update_collaboration_status { n with selected_measure := some "Collaborative project" }))
  else
    (self, neighbours)

/-- The adaptation evaluation in `Households.step` (after the collaboration
call): thresholds 0.1 and 0.15. -/
def adaptation_evaluation (h : Household) : Household :=
  if h.flood_damage_estimated < 0.1 then
    { h with is_adapted := true }
  else
    match h.selected_measure with
    | some m =>
        if 0.15 ≤ calculate_damage_reduction_factor (some m) then
          { h with is_adapted := true }
        else h
    | none => h

/-- `Households.step`: collaborate with neighbours, then evaluate adaptation. -/
def Household.step (self : Household) (neighbours : List Household) :
    Household × List Household :=
  let (s, ns) := collaborate_on_adaptation self neighbours
  (adaptation_evaluation s, ns)

/-- The disbursement loop of `Government.support_non_adapted_households`:
walks the non-adapted list with `subsidy_amount = 6000` and `count = 3`,
disbursing while the household is eligible and the budget suffices.
Returns (final budget, number of subsidies given, updated households). -/
def support_loop (subsidy_amount : ℚ) :
    List Household → ℚ → Nat → ℚ × Nat × List Household
  | [], budget, _ => (budget, 0, [])
  | h :: hs, budget, count =>
    if count = 0 then (budget, 0, h :: hs)
    else if h.wealth < 10000 ∧ subsidy_amount ≤ budget then
      let r := support_loop subsidy_amount hs (budget - subsidy_amount) (count - 1)
      (r.1, r.2.1 + 1, receive_subsidy h subsidy_amount :: r.2.2)
    else
      let r := support_loop subsidy_amount hs budget count
      (r.1, r.2.1, h :: r.2.2)

/-- `Government.support_non_adapted_households`: early return when the budget
is exhausted, then the disbursement loop over the non-adapted households. -/
def support_non_adapted_households (subsidy_budget : ℚ) (agents : List Household) :
    ℚ × Nat × List Household :=
  if subsidy_budget ≤ 0 then (subsidy_budget, 0, agents)
  else
    let non_adapted := agents.filter (fun h => ¬(h.is_adapted = true))
    support_loop 6000 non_adapted subsidy_budget 3

/-- A concrete household used to instantiate scenarios: non-adapted, no
measure, given wealth, flood damages set to 1 (fully exposed). -/
def sample_household (w : ℚ) : Household :=
  { wealth := w
    flood_depth_estimated := 0
    flood_damage_estimated := 1
    flood_depth_actual := 0
    flood_damage_actual := 0
    risk_aversness := 0
    adaptation_budget := 0
    selected_measure := none
    is_adapted := false }

/-! ### Theorems -/

/-- C9: The damage-reduction lookup is a pure total function: 0.05 for
Sandbags, 0.7 for elevating the house, 0.3 for relocating electrical
systems, 0.8 for the collaborative project, and 1 for any unknown or absent
measure (including `none`); it never fails. -/
theorem reduction_factor_total :
    calculate_damage_reduction_factor (some "Sandbags") = 0.05 ∧
    calculate_damage_reduction_factor (some "Elevating the house") = 0.7 ∧
    calculate_damage_reduction_factor (some "Relocating electrical systems") = 0.3 ∧
    calculate_damage_reduction_factor (some "Collaborative project") = 0.8 ∧
    calculate_damage_reduction_factor none = 1 ∧
    ∀ s : String, s ∉ reduction_factors.map Prod.fst →
      calculate_damage_reduction_factor (some s) = 1 := by
  refine ⟨rfl, rfl, rfl, rfl, rfl, ?_⟩
  intro s hs
  simp only [reduction_factors, List.map, List.mem_cons, List.not_mem_nil, or_false,
    not_or] at hs
  obtain ⟨h1, h2, h3, h4⟩ := hs
  have e1 : ("Sandbags" == s) = false := beq_eq_false_iff_ne.mpr (fun h => h1 h.symm)
  have e2 : ("Elevating the house" == s) = false := beq_eq_false_iff_ne.mpr (fun h => h2 h.symm)
  have e3 : ("Relocating electrical systems" == s) = false :=
    beq_eq_false_iff_ne.mpr (fun h => h3 h.symm)
  have e4 : ("Collaborative project" == s) = false :=
    beq_eq_false_iff_ne.mpr (fun h => h4 h.symm)
  simp [calculate_damage_reduction_factor, reduction_factors, List.find?, e1, e2, e3, e4]

/-- C9 witness: the unknown measure "Insurance" yields factor 1. -/
theorem reduction_factor_total_witness :
    calculate_damage_reduction_factor (some "Insurance") = 1 :=
  reduction_factor_total.2.2.2.2.2 "Insurance" (by decide)

/-- C5: In the per-tick adaptation evaluation, estimated damage below 0.1
sets `is_adapted` unconditionally; otherwise a selected measure with
reduction factor ≥ 0.15 sets it; in all other cases the household state
(in particular `is_adapted`) is unchanged — it is never reset to false. -/
theorem step_adaptation_evaluation (h : Household) :
    (h.flood_damage_estimated < 0.1 →
      adaptation_evaluation h = { h with is_adapted := true }) ∧
    (¬ h.flood_damage_estimated < 0.1 →
      ∀ m, h.selected_measure = some m →
        0.15 ≤ calculate_damage_reduction_factor (some m) →
        adaptation_evaluation h = { h with is_adapted := true }) ∧
    (¬ h.flood_damage_estimated < 0.1 → h.selected_measure = none →
      adaptation_evaluation h = h) ∧
    (¬ h.flood_damage_estimated < 0.1 →
      ∀ m, h.selected_measure = some m →
        ¬ 0.15 ≤ calculate_damage_reduction_factor (some m) →
        adaptation_evaluation h = h) := by
  refine ⟨fun hlt => ?_, fun hge m hm hf => ?_, fun hge hm => ?_, fun hge m hm hf => ?_⟩
  · simp [adaptation_evaluation, hlt]
  · simp [adaptation_evaluation, hge, hm, hf]
  · simp [adaptation_evaluation, hge, hm]
  · simp [adaptation_evaluation, hge, hm, hf]

/-- C5 witness: a household with estimated damage 1 and no measure is left
unchanged by the evaluation. -/
theorem step_adaptation_evaluation_witness :
    adaptation_evaluation (sample_household 0) = sample_household 0 :=
  (step_adaptation_evaluation (sample_household 0)).2.2.1 (by norm_num [sample_household]) rfl

/-- C6: Receiving a subsidy adds exactly the amount to wealth, leaves the
selected measure unchanged, and sets `is_adapted` when the new wealth reaches
5000 and the household was not yet adapted; otherwise `is_adapted` keeps its
prior value. -/
theorem receive_subsidy_contract (h : Household) (a : ℚ) :
    (receive_subsidy h a).wealth = h.wealth + a ∧
    (receive_subsidy h a).selected_measure = h.selected_measure ∧
    (5000 ≤ h.wealth + a → h.is_adapted = false → (receive_subsidy h a).is_adapted = true) ∧
    (¬ 5000 ≤ h.wealth + a → (receive_subsidy h a).is_adapted = h.is_adapted) ∧
    (h.is_adapted = true → (receive_subsidy h a).is_adapted = true) := by
  refine ⟨?_, ?_, fun hge hna => ?_, fun hlt => ?_, fun had => ?_⟩
  · simp only [receive_subsidy, re_evaluate_adaptation]
    split <;> rfl
  · simp only [receive_subsidy, re_evaluate_adaptation]
    split <;> rfl
  · simp [receive_subsidy, re_evaluate_adaptation, hge, hna]
  · simp [receive_subsidy, re_evaluate_adaptation, hlt]
  · simp only [receive_subsidy, re_evaluate_adaptation]
    split <;> simp [had]

/-- C6 witness: a household with wealth 1000 receiving 6000 reaches wealth
7000 and becomes adapted, with its measure unchanged. -/
theorem receive_subsidy_contract_witness :
    (receive_subsidy (sample_household 1000) 6000).wealth = 1000 + 6000 ∧
    (receive_subsidy (sample_household 1000) 6000).selected_measure = none ∧
    (receive_subsidy (sample_household 1000) 6000).is_adapted = true :=
  ⟨(receive_subsidy_contract (sample_household 1000) 6000).1,
   (receive_subsidy_contract (sample_household 1000) 6000).2.1,
   (receive_subsidy_contract (sample_household 1000) 6000).2.2.1 (by norm_num [sample_household])
     rfl⟩

/-- Five non-adapted households, each with wealth below the 10000
eligibility threshold (Scenario 3). -/
def eligible_five : List Household :=
  [sample_household 1000, sample_household 2000, sample_household 3000,
   sample_household 4000, sample_household 5000]

/-- C7: An allocation pass with budget 12000 over 5 eligible non-adapted
households disburses exactly 2 subsidies, ends with budget 0, and leaves
every household after the second untouched. -/
theorem government_scenario_12000 :
    (support_non_adapted_households 12000 eligible_five).1 = 0 ∧
    (support_non_adapted_households 12000 eligible_five).2.1 = 2 ∧
    (support_non_adapted_households 12000 eligible_five).2.2 =
      [receive_subsidy (sample_household 1000) 6000,
       receive_subsidy (sample_household 2000) 6000,
       sample_household 3000, sample_household 4000, sample_household 5000] := by
  refine ⟨?_, ?_, ?_⟩ <;>
    norm_num [support_non_adapted_households, eligible_five, support_loop,
      sample_household, receive_subsidy, re_evaluate_adaptation, List.filter]

/-- C8: A negative raw flood-depth sample is clamped to 0 before any damage
computation: the stored depth is 0 and the stored estimated damage is the
damage function at depth 0 (times the measure's reduction factor, i.e. the
pre-scaling value is `damage 0`). -/
theorem negative_depth_clamped (damage : ℚ → ℚ) (w r raw : ℚ) (hraw : raw < 0) :
    (Household.init damage w r raw).flood_depth_estimated = 0 ∧
    (Household.init damage w r raw).flood_damage_estimated =
      damage 0 * calculate_damage_reduction_factor
        (Household.init damage w r raw).selected_measure := by
  constructor
  · simp [Household.init, if_pos hraw]
  · simp only [Household.init, if_pos hraw]
    cases hsel : select_measure (w * r) with
    | none => simp [calculate_damage_reduction_factor]
    | some m => rfl

/-- C8 witness: a sample of -2, with the identity damage function, yields
depth 0 and estimated damage `damage 0` (budget 100, so no measure). -/
theorem negative_depth_clamped_witness :
    (Household.init (fun d => d) 100 1 (-2)).flood_depth_estimated = 0 ∧
    (Household.init (fun d => d) 100 1 (-2)).flood_damage_estimated =
      (fun d : ℚ => d) 0 * calculate_damage_reduction_factor
        (Household.init (fun d => d) 100 1 (-2)).selected_measure :=
  negative_depth_clamped (fun d => d) 100 1 (-2) (by norm_num)

/-- C4: The collaboration phase leaves the initiating household untouched;
exactly when own wealth plus the sum of neighbour wealth exceeds 50000,
every neighbour gets `selected_measure = Collaborative project` and, through
the invoked status update, `is_adapted = true`; otherwise the neighbours are
unchanged. -/
theorem collaboration_effect (self : Household) (ns : List Household) :
    (collaborate_on_adaptation self ns).1 = self ∧
    (50000 < self.wealth + (ns.map Household.wealth).sum →
      (collaborate_on_adaptation self ns).2 = ns.map (fun n =>
        { n with selected_measure := some "Collaborative project", is_adapted := true })) ∧
    (¬ 50000 < self.wealth + (ns.map Household.wealth).sum →
      (collaborate_on_adaptation self ns).2 = ns) := by
  refine ⟨?_, fun hgt => ?_, fun hle => ?_⟩
  · simp only [collaborate_on_adaptation]
    split <;> rfl
  · simp [collaborate_on_adaptation, hgt, update_collaboration_status]
  · simp [collaborate_on_adaptation, hle]

/-- C4 witness (Scenario 4): neighbours with wealth 30000 and 25000 pool to
55000 (plus the initiator's 1000) > 50000; both neighbours end with the
collaborative project and adapted status, the initiator unchanged. -/
theorem collaboration_effect_witness :
    (collaborate_on_adaptation (sample_household 1000)
        [sample_household 30000, sample_household 25000]).1 = sample_household 1000 ∧
    (collaborate_on_adaptation (sample_household 1000)
        [sample_household 30000, sample_household 25000]).2 =
      [sample_household 30000, sample_household 25000].map (fun n =>
        { n with selected_measure := some "Collaborative project", is_adapted := true }) :=
  ⟨(collaboration_effect (sample_household 1000)
      [sample_household 30000, sample_household 25000]).1,
   (collaboration_effect (sample_household 1000)
      [sample_household 30000, sample_household 25000]).2.1
     (by norm_num [sample_household])⟩

/-- C10: `is_adapted` is monotone: no operation after construction ever
changes it from true to false — the per-tick step (including its
collaboration call), the collaboration status update, the subsidy
re-evaluation and subsidy receipt only ever set it to true, and the
collaboration phase never un-adapts any neighbour. -/
theorem is_adapted_monotone (h self : Household) (a : ℚ) (ns : List Household) :
    (h.is_adapted = true → (adaptation_evaluation h).is_adapted = true) ∧
    (h.is_adapted = true → (update_collaboration_status h).is_adapted = true) ∧
    (h.is_adapted = true → (re_evaluate_adaptation h).is_adapted = true) ∧
    (h.is_adapted = true → (receive_subsidy h a).is_adapted = true) ∧
    (h.is_adapted = true → ((Household.step h ns).1).is_adapted = true) ∧
    List.Forall₂ (fun n n' => n.is_adapted = true → n'.is_adapted = true)
      ns (collaborate_on_adaptation self ns).2 := by
  have heval : ∀ g : Household, g.is_adapted = true →
      (adaptation_evaluation g).is_adapted = true := by
    intro g hg
    simp only [adaptation_evaluation]
    split
    · rfl
    · split
      · split <;> simp [hg]
      · exact hg
  have hcol : ∀ (s : Household) (l : List Household),
      List.Forall₂ (fun n n' => n.is_adapted = true → n'.is_adapted = true)
        l (collaborate_on_adaptation s l).2 := by
    intro s l
    simp only [collaborate_on_adaptation]
    split
    · exact List.forall₂_map_right_iff.mpr
        (List.forall₂_same.mpr (by simp [update_collaboration_status]))
    · exact List.forall₂_same.mpr (fun x _ hx => hx)
  refine ⟨heval h, fun hg => ?_, fun hg => ?_, fun hg => ?_, fun hg => ?_, hcol self ns⟩
  · simp only [update_collaboration_status]
    split <;> simp [hg]
  · simp only [re_evaluate_adaptation]
    split <;> simp [hg]
  · simp only [receive_subsidy, re_evaluate_adaptation]
    split <;> simp [hg]
  · have h1 : (collaborate_on_adaptation h ns).1 = h := by
      simp only [collaborate_on_adaptation]
      split <;> rfl
    show (adaptation_evaluation (collaborate_on_adaptation h ns).1).is_adapted = true
    rw [h1]
    exact heval h hg

/-- C10 witness: an adapted household stays adapted through the per-tick
evaluation and through subsidy receipt. -/
theorem is_adapted_monotone_witness :
    (adaptation_evaluation { sample_household 0 with is_adapted := true }).is_adapted = true ∧
    (receive_subsidy { sample_household 0 with is_adapted := true } 6000).is_adapted = true :=
  ⟨(is_adapted_monotone { sample_household 0 with is_adapted := true }
      (sample_household 0) 6000 []).1 rfl,
   (is_adapted_monotone { sample_household 0 with is_adapted := true }
      (sample_household 0) 6000 []).2.2.2.1 rfl⟩

/-- The disbursement loop keeps the budget non-negative and non-increasing
and gives at most `count` subsidies, for a non-negative subsidy amount. -/
theorem support_loop_budget (amount : ℚ) (ha : 0 ≤ amount) :
    ∀ (hs : List Household) (budget : ℚ) (count : Nat), 0 ≤ budget →
      0 ≤ (support_loop amount hs budget count).1 ∧
      (support_loop amount hs budget count).1 ≤ budget ∧
      (support_loop amount hs budget count).2.1 ≤ count := by
  intro hs
  induction hs with
  | nil =>
    intro budget count hb
    exact ⟨hb, le_refl _, Nat.zero_le _⟩
  | cons h t ih =>
    intro budget count hb
    simp only [support_loop]
    split
    · exact ⟨hb, le_refl _, Nat.zero_le _⟩
    · rename_i hc
      split
      · rename_i hcond
        have hb' : 0 ≤ budget - amount := by linarith [hcond.2]
        obtain ⟨i1, i2, i3⟩ := ih (budget - amount) (count - 1) hb'
        refine ⟨i1, by linarith, ?_⟩
        show (support_loop amount t (budget - amount) (count - 1)).2.1 + 1 ≤ count
        omega
      · exact ih budget count hb

/-- C1: An allocation pass over any agent population, started with a
non-negative budget, ends with a budget that is still non-negative and no
larger than the starting budget, and disburses at most `perTickCap = 3`
subsidies no matter how many households are eligible. -/
theorem government_budget_invariant (budget : ℚ) (agents : List Household)
    (hb : 0 ≤ budget) :
    0 ≤ (support_non_adapted_households budget agents).1 ∧
    (support_non_adapted_households budget agents).1 ≤ budget ∧
    (support_non_adapted_households budget agents).2.1 ≤ 3 := by
  simp only [support_non_adapted_households]
  split
  · exact ⟨hb, le_refl _, Nat.zero_le _⟩
  · exact support_loop_budget 6000 (by norm_num) _ budget 3 hb

/-- C1 witness: the pass of Scenario 3 satisfies the budget invariants. -/
theorem government_budget_invariant_witness :
    0 ≤ (support_non_adapted_households 12000 eligible_five).1 ∧
    (support_non_adapted_households 12000 eligible_five).1 ≤ 12000 ∧
    (support_non_adapted_households 12000 eligible_five).2.1 ≤ 3 :=
  government_budget_invariant 12000 eligible_five (by norm_num)

/-- The running maximum is one of the scanned entries. -/
theorem max_by_cost_mem : ∀ (l : List (String × ℚ)) (p : String × ℚ),
    max_by_cost p l = p ∨ max_by_cost p l ∈ l
  | [], _ => Or.inl rfl
  | q :: qs, p => by
    simp only [max_by_cost]
    split
    · rcases max_by_cost_mem qs q with h | h
      · exact Or.inr (by simp [h])
      · exact Or.inr (List.mem_cons_of_mem _ h)
    · rcases max_by_cost_mem qs p with h | h
      · exact Or.inl h
      · exact Or.inr (List.mem_cons_of_mem _ h)

/-- The running maximum dominates the seed entry. -/
theorem le_max_by_cost_self : ∀ (l : List (String × ℚ)) (p : String × ℚ),
    p.2 ≤ (max_by_cost p l).2
  | [], _ => le_refl _
  | q :: qs, p => by
    simp only [max_by_cost]
    split
    · rename_i hlt
      exact le_of_lt (lt_of_lt_of_le hlt (le_max_by_cost_self qs q))
    · exact le_max_by_cost_self qs p

/-- The running maximum dominates every scanned entry. -/
theorem le_max_by_cost_mem : ∀ (l : List (String × ℚ)) (p q : String × ℚ),
    q ∈ l → q.2 ≤ (max_by_cost p l).2
  | [], _, _, h => absurd h (List.not_mem_nil _)
  | r :: rs, p, q, h => by
    simp only [max_by_cost]
    rcases List.mem_cons.mp h with rfl | hmem
    · split
      · exact le_max_by_cost_self rs q
      · rename_i hnlt
        exact le_trans (le_of_not_lt hnlt) (le_max_by_cost_self rs p)
    · split
      · exact le_max_by_cost_mem rs r q hmem
      · exact le_max_by_cost_mem rs p q hmem

/-- C2: The selected measure is the costliest affordable entry of the cost
table; with nothing affordable the selection is `none`. Concretely, budget
90000 selects elevating the house (cost 80000) and budget 100 selects
nothing, in which case the stored estimated damage stays unmultiplied. -/
theorem measure_selection_costliest_affordable :
    (∀ (budget : ℚ) (m : String), select_measure budget = some m →
      ∃ c, (m, c) ∈ flood_measures ∧ c ≤ budget ∧
        ∀ p ∈ flood_measures, p.2 ≤ budget → p.2 ≤ c) ∧
    (∀ budget : ℚ, (∀ p ∈ flood_measures, ¬ p.2 ≤ budget) →
      select_measure budget = none) ∧
    select_measure 90000 = some "Elevating the house" ∧
    select_measure 100 = none ∧
    (∀ (damage : ℚ → ℚ) (raw : ℚ),
      (Household.init damage 100 1 raw).selected_measure = none ∧
      (Household.init damage 100 1 raw).flood_damage_estimated =
        damage (Household.init damage 100 1 raw).flood_depth_estimated) := by
  have hsel100 : select_measure (100 : ℚ) = none := by
    norm_num [select_measure, affordable_measures, flood_measures, List.filter_cons]
  refine ⟨?_, ?_, ?_, ?_, ?_⟩
  · intro budget m hsel
    rcases haff : affordable_measures budget with _ | ⟨p, ps⟩
    · rw [select_measure, haff] at hsel
      exact absurd hsel (by simp)
    · rw [select_measure, haff] at hsel
      have hm : m = (max_by_cost p ps).1 := (Option.some.injEq _ _).mp hsel.symm
      refine ⟨(max_by_cost p ps).2, ?_, ?_, ?_⟩
      · have hmem : max_by_cost p ps ∈ affordable_measures budget := by
          rw [haff]
          rcases max_by_cost_mem ps p with h | h
          · rw [h]
            exact List.mem_cons_self _ _
          · exact List.mem_cons_of_mem _ h
        have := (List.mem_filter.mp hmem).1
        simpa [hm] using this
      · have hmem : max_by_cost p ps ∈ affordable_measures budget := by
          rw [haff]
          rcases max_by_cost_mem ps p with h | h
          · rw [h]
            exact List.mem_cons_self _ _
          · exact List.mem_cons_of_mem _ h
        have := (List.mem_filter.mp hmem).2
        exact of_decide_eq_true this
      · intro q hq hqb
        have hqa : q ∈ affordable_measures budget :=
          List.mem_filter.mpr ⟨hq, decide_eq_true hqb⟩
        rw [haff] at hqa
        rcases List.mem_cons.mp hqa with rfl | hmem
        · exact le_max_by_cost_self ps q
        · exact le_max_by_cost_mem ps p q hmem
  · intro budget hno
    have : affordable_measures budget = [] := by
      rw [affordable_measures, List.filter_eq_nil_iff]
      intro p hp
      simpa using hno p hp
    rw [select_measure, this]
  · norm_num [select_measure, affordable_measures, flood_measures, List.filter_cons,
      max_by_cost]
  · norm_num [select_measure, affordable_measures, flood_measures, List.filter_cons]
  · intro damage raw
    constructor
    · simp [Household.init, mul_one, hsel100]
    · simp [Household.init, mul_one, hsel100]

/-- C2 witness: budget 90000 indeed selects elevating the house with its
table cost 80000 affordable and maximal. -/
theorem measure_selection_costliest_affordable_witness :
    ∃ c, ("Elevating the house", c) ∈ flood_measures ∧ c ≤ (90000 : ℚ) ∧
      ∀ p ∈ flood_measures, p.2 ≤ (90000 : ℚ) → p.2 ≤ c :=
  measure_selection_costliest_affordable.1 90000 "Elevating the house"
    measure_selection_costliest_affordable.2.2.1

/-- Every value of the damage-reduction lookup lies in [0,1]. -/
theorem reduction_factor_bounds (m : Option String) :
    0 ≤ calculate_damage_reduction_factor m ∧ calculate_damage_reduction_factor m ≤ 1 := by
  cases m with
  | none => norm_num [calculate_damage_reduction_factor]
  | some s =>
    simp only [calculate_damage_reduction_factor]
    rcases hf : reduction_factors.find? (fun p => p.1 == s) with _ | q
    · rw [hf]
      norm_num
    · have hq := List.mem_of_find?_eq_some hf
      simp only [reduction_factors, List.mem_cons, List.not_mem_nil, or_false] at hq
      rcases hq with rfl | rfl | rfl | rfl <;> rw [hf] <;> norm_num

/-- The per-household safety predicate of the spec: non-negative wealth and
both damage fractions in [0,1]. -/
def DamageInv (h : Household) : Prop :=
  0 ≤ h.wealth ∧ 0 ≤ h.flood_damage_estimated ∧ h.flood_damage_estimated ≤ 1 ∧
  0 ≤ h.flood_damage_actual ∧ h.flood_damage_actual ≤ 1

/-- Operations that only change `selected_measure` or `is_adapted` keep the
safety predicate. -/
theorem DamageInv_of_fields (g h : Household) (hw : g.wealth = h.wealth)
    (he : g.flood_damage_estimated = h.flood_damage_estimated)
    (hact : g.flood_damage_actual = h.flood_damage_actual)
    (hinv : DamageInv h) : DamageInv g := by
  rw [DamageInv, hw, he, hact]
  exact hinv

/-- C3: The invariant wealth ≥ 0 ∧ damages ∈ [0,1] holds after construction
(for a non-negative initial wealth draw) and is preserved by subsidy receipt
(for a non-negative amount), by the per-tick step, by the collaboration
phase for every neighbour, and by the status updates — assuming the external
damage function returns values in [0,1]. -/
theorem household_invariants (damage : ℚ → ℚ)
    (hdmg : ∀ d, 0 ≤ damage d ∧ damage d ≤ 1)
    (w r raw a : ℚ) (hw : 0 ≤ w) (ha : 0 ≤ a)
    (h : Household) (hinv : DamageInv h) (ns : List Household)
    (hns : ∀ n ∈ ns, DamageInv n) :
    DamageInv (Household.init damage w r raw) ∧
    DamageInv (receive_subsidy h a) ∧
    DamageInv (adaptation_evaluation h) ∧
    DamageInv (update_collaboration_status h) ∧
    DamageInv (re_evaluate_adaptation h) ∧
    DamageInv (Household.step h ns).1 ∧
    (∀ n' ∈ (Household.step h ns).2, DamageInv n') := by
  have hre : ∀ g : Household, DamageInv g → DamageInv (re_evaluate_adaptation g) := by
    intro g hg
    simp only [re_evaluate_adaptation]
    split
    · exact DamageInv_of_fields _ g rfl rfl rfl hg
    · exact hg
  have heval : ∀ g : Household, DamageInv g → DamageInv (adaptation_evaluation g) := by
    intro g hg
    simp only [adaptation_evaluation]
    split
    · exact DamageInv_of_fields _ g rfl rfl rfl hg
    · split
      · split
        · exact DamageInv_of_fields _ g rfl rfl rfl hg
        · exact hg
      · exact hg
  have hcolns : ∀ n' ∈ (collaborate_on_adaptation h ns).2, DamageInv n' := by
    intro n' hn'
    simp only [collaborate_on_adaptation] at hn'
    split at hn'
    · obtain ⟨n, hn, rfl⟩ := List.mem_map.mp hn'
      have := hns n hn
      simp only [update_collaboration_status]
      split
      · exact DamageInv_of_fields _ n rfl rfl rfl this
      · exact DamageInv_of_fields _ n rfl rfl rfl this
    · exact hns n' hn'
  have hcolfst : (collaborate_on_adaptation h ns).1 = h := by
    simp only [collaborate_on_adaptation]
    split <;> rfl
  refine ⟨?_, ?_, heval h hinv, ?_, hre h hinv, ?_, ?_⟩
  · refine ⟨hw, ?_, ?_, (hdmg 0).1, (hdmg 0).2⟩
    · simp only [Household.init]
      rcases select_measure (w * r) with _ | m
      · exact (hdmg _).1
      · exact mul_nonneg (hdmg _).1 (reduction_factor_bounds (some m)).1
    · simp only [Household.init]
      rcases select_measure (w * r) with _ | m
      · exact (hdmg _).2
      · exact mul_le_one₀ (hdmg _).2 (reduction_factor_bounds (some m)).1
          (reduction_factor_bounds (some m)).2
  · have h1 : DamageInv { h with wealth := h.wealth + a } :=
      ⟨add_nonneg hinv.1 ha, hinv.2.1, hinv.2.2.1, hinv.2.2.2.1, hinv.2.2.2.2⟩
    exact hre _ h1
  · simp only [update_collaboration_status]
    split
    · exact DamageInv_of_fields _ h rfl rfl rfl hinv
    · exact hinv
  · show DamageInv (adaptation_evaluation (collaborate_on_adaptation h ns).1)
    rw [hcolfst]
    exact heval h hinv
  · intro n' hn'
    exact hcolns n' hn'

/-- C3 witness: the invariant holds for a household constructed with the
constant-zero damage function, wealth 100, risk 1 and depth sample -2. -/
theorem household_invariants_witness :
    DamageInv (Household.init (fun _ => 0) 100 1 (-2)) :=
  (household_invariants (fun _ => 0) (fun d => by norm_num) 100 1 (-2) 6000
    (by norm_num) (by norm_num) (sample_household 0)
    (by norm_num [DamageInv, sample_household]) [] (by simp)).1

end ABM
